import Mathlib

/-!
Shallow embedding of the curses OSC loop-sampler controller
(src/curses-sc-test/loop_sampler.py) and proofs about its control-state
engine: the loop window, the ADSR parameter store, the voice tracker, the
keyboard note mapper, and the TUI dispatch/send layer.

Python floats are modelled as exact rationals; the wall-clock timestamp
prefixed to log entries is abstracted away (log entries carry only their
text); the UDP transport is modelled as an oracle mapping each outbound
message to either success or an error string (an OSError raised by the
send call).
-/

namespace LoopSampler

/-- Epsilon used by the no-op checks (1e-6 in the source). -/
def eps : ℚ := 1 / 1000000

/-- LoopParameters._clamp: max(0.0, min(1.0, value)). -/
def clamp01 (value : ℚ) : ℚ := max 0 (min 1 value)

/-! ### LoopParameters (the loop window) -/

/-- State of the LoopParameters dataclass. -/
structure LoopParameters where
  start : ℚ
  end_ : ℚ
  min_span : ℚ
  step : ℚ
  coarse_step : ℚ
  revision : ℤ
deriving DecidableEq, Repr

/-- LoopParameters construction followed by __post_init__: both bounds are
clamped to [0, 1]; if the span is below min_span, end is pulled up to
start + min_span (capped at 1) and then start pulled down to
end - min_span (floored at 0). revision starts at 0. -/
def LoopParameters.init (start end_ min_span step coarse_step : ℚ) :
    LoopParameters :=
  let s := clamp01 start
  let e := clamp01 end_
  if e - s < min_span then
    let e2 := min 1 (s + min_span)
    let s2 := max 0 (e2 - min_span)
    ⟨s2, e2, min_span, step, coarse_step, 0⟩
  else
    ⟨s, e, min_span, step, coarse_step, 0⟩

/-- LoopParameters.adjust_start: propose clamp01(start + delta), cap at
end - min_span, treat a sub-epsilon change as a no-op returning false,
otherwise commit and bump revision. -/
def LoopParameters.adjust_start (p : LoopParameters) (delta : ℚ) :
    Bool × LoopParameters :=
  let new_start0 := clamp01 (p.start + delta)
  let max_start := p.end_ - p.min_span
  let new_start := if max_start < new_start0 then max_start else new_start0
  if |new_start - p.start| < eps then (false, p)
  else (true, { p with start := new_start, revision := p.revision + 1 })

/-- LoopParameters.adjust_end: propose clamp01(end + delta), floor at
start + min_span, treat a sub-epsilon change as a no-op returning false,
otherwise commit and bump revision. -/
def LoopParameters.adjust_end (p : LoopParameters) (delta : ℚ) :
    Bool × LoopParameters :=
  let new_end0 := clamp01 (p.end_ + delta)
  let min_end := p.start + p.min_span
  let new_end := if new_end0 < min_end then min_end else new_end0
  if |new_end - p.end_| < eps then (false, p)
  else (true, { p with end_ := new_end, revision := p.revision + 1 })

/-- LoopParameters.payload: the wire representation (start, end, revision). -/
def LoopParameters.payload (p : LoopParameters) : ℚ × ℚ × ℤ :=
  (p.start, p.end_, p.revision)

/-- The loop-window invariant claimed by the spec:
0 ≤ start ≤ end ≤ 1 and end - start ≥ min_span. -/
def LoopInv (p : LoopParameters) : Prop :=
  0 ≤ p.start ∧ p.start ≤ p.end_ ∧ p.end_ ≤ 1 ∧ p.min_span ≤ p.end_ - p.start

instance (p : LoopParameters) : Decidable (LoopInv p) := by
  unfold LoopInv; infer_instance

/-- One element of an adjustment sequence: (isEnd, delta); isEnd = true calls
adjust_end, false calls adjust_start. -/
def applyLoopAdjust (p : LoopParameters) (a : Bool × ℚ) : LoopParameters :=
  if a.1 then (p.adjust_end a.2).2 else (p.adjust_start a.2).2

lemma clamp01_nonneg (x : ℚ) : 0 ≤ clamp01 x := le_max_left 0 _

lemma clamp01_le_one (x : ℚ) : clamp01 x ≤ 1 :=
  max_le (by norm_num) (min_le_left 1 x)

lemma LoopInv.init_holds {start end_ min_span step coarse_step : ℚ}
    (h0 : 0 ≤ min_span) (h1 : min_span ≤ 1) :
    LoopInv (LoopParameters.init start end_ min_span step coarse_step) := by
  unfold LoopParameters.init
  set s := clamp01 start with hs
  set e := clamp01 end_ with he
  have hs0 : 0 ≤ s := clamp01_nonneg start
  have hs1 : s ≤ 1 := clamp01_le_one start
  have he0 : 0 ≤ e := clamp01_nonneg end_
  have he1 : e ≤ 1 := clamp01_le_one end_
  by_cases hspan : e - s < min_span
  · simp only [hspan, if_true]
    rcases le_or_lt (s + min_span) 1 with hc | hc
    · have hmin : min 1 (s + min_span) = s + min_span := min_eq_right hc
      have hmax : max 0 (s + min_span - min_span) = s + min_span - min_span := by
        rw [max_eq_right]; linarith
      refine ⟨?_, ?_, ?_, ?_⟩ <;> dsimp only <;> simp only [hmin, hmax] <;> linarith
    · have hmin : min 1 (s + min_span) = 1 := min_eq_left (by linarith)
      have hmax : max 0 (1 - min_span) = 1 - min_span := by
        rw [max_eq_right]; linarith
      refine ⟨?_, ?_, ?_, ?_⟩ <;> dsimp only <;> simp only [hmin, hmax] <;> linarith
  · simp only [hspan, if_false]
    push_neg at hspan
    exact ⟨hs0, by linarith, he1, hspan⟩

lemma LoopInv.adjust_start_preserves {p : LoopParameters} (h : LoopInv p)
    (hm : 0 ≤ p.min_span) (delta : ℚ) : LoopInv (p.adjust_start delta).2 := by
  obtain ⟨h0, h1, h2, h3⟩ := h
  unfold LoopParameters.adjust_start
  set ns0 := clamp01 (p.start + delta) with hns0
  have hns0a : 0 ≤ ns0 := clamp01_nonneg _
  have hns0b : ns0 ≤ 1 := clamp01_le_one _
  by_cases hcap : p.end_ - p.min_span < ns0
  · simp only [hcap, if_true]
    by_cases hnoop : |p.end_ - p.min_span - p.start| < eps
    · simp only [hnoop, if_true]; exact ⟨h0, h1, h2, h3⟩
    · simp only [hnoop, if_false]
      refine ⟨?_, ?_, ?_, ?_⟩ <;> dsimp only <;> linarith
  · simp only [hcap, if_false]
    push_neg at hcap
    by_cases hnoop : |ns0 - p.start| < eps
    · simp only [hnoop, if_true]; exact ⟨h0, h1, h2, h3⟩
    · simp only [hnoop, if_false]
      refine ⟨?_, ?_, ?_, ?_⟩ <;> dsimp only <;> linarith

lemma LoopInv.adjust_end_preserves {p : LoopParameters} (h : LoopInv p)
    (hm : 0 ≤ p.min_span) (delta : ℚ) : LoopInv (p.adjust_end delta).2 := by
  obtain ⟨h0, h1, h2, h3⟩ := h
  unfold LoopParameters.adjust_end
  set ne0 := clamp01 (p.end_ + delta) with hne0
  have hne0a : 0 ≤ ne0 := clamp01_nonneg _
  have hne0b : ne0 ≤ 1 := clamp01_le_one _
  by_cases hcap : ne0 < p.start + p.min_span
  · simp only [hcap, if_true]
    by_cases hnoop : |p.start + p.min_span - p.end_| < eps
    · simp only [hnoop, if_true]; exact ⟨h0, h1, h2, h3⟩
    · simp only [hnoop, if_false]
      refine ⟨?_, ?_, ?_, ?_⟩ <;> dsimp only <;> linarith
  · simp only [hcap, if_false]
    push_neg at hcap
    by_cases hnoop : |ne0 - p.end_| < eps
    · simp only [hnoop, if_true]; exact ⟨h0, h1, h2, h3⟩
    · simp only [hnoop, if_false]
      refine ⟨?_, ?_, ?_, ?_⟩ <;> dsimp only <;> linarith

lemma LoopParameters.adjust_start_min_span (p : LoopParameters) (delta : ℚ) :
    (p.adjust_start delta).2.min_span = p.min_span := by
  unfold LoopParameters.adjust_start
  dsimp only
  split <;> split <;> rfl

lemma LoopParameters.adjust_end_min_span (p : LoopParameters) (delta : ℚ) :
    (p.adjust_end delta).2.min_span = p.min_span := by
  unfold LoopParameters.adjust_end
  dsimp only
  split <;> split <;> rfl

lemma LoopInv.foldl_preserves {p : LoopParameters} (h : LoopInv p)
    (hm : 0 ≤ p.min_span) (l : List (Bool × ℚ)) :
    LoopInv (l.foldl applyLoopAdjust p) := by
  induction l generalizing p with
  | nil => exact h
  | cons a rest ih =>
    obtain ⟨b, d⟩ := a
    simp only [List.foldl_cons]
    cases b
    · have hstep : applyLoopAdjust p (false, d) = (p.adjust_start d).2 := rfl
      rw [hstep]
      exact ih (h.adjust_start_preserves hm d)
        (by rw [LoopParameters.adjust_start_min_span]; exact hm)
    · have hstep : applyLoopAdjust p (true, d) = (p.adjust_end d).2 := rfl
      rw [hstep]
      exact ih (h.adjust_end_preserves hm d)
        (by rw [LoopParameters.adjust_end_min_span]; exact hm)

/-! ### ADSR (the envelope parameter store) -/

/-- The range triple of one ADSR parameter. -/
structure ADSRRange where
  minimum : ℚ
  maximum : ℚ
  step : ℚ
deriving DecidableEq, Repr

/-- The closed set of parameter names (the four fixed dict keys). -/
inductive ParamName
  | attack
  | decay
  | sustain
  | release
deriving DecidableEq, Repr

/-- The ranges dict: exactly the four fixed keys. -/
structure ADSRRanges where
  attack : ADSRRange
  decay : ADSRRange
  sustain : ADSRRange
  release : ADSRRange
deriving DecidableEq, Repr

/-- Lookup self.ranges[name]. -/
def ADSRRanges.get (r : ADSRRanges) : ParamName → ADSRRange
  | .attack => r.attack
  | .decay => r.decay
  | .sustain => r.sustain
  | .release => r.release

/-- The ranges installed by ADSR.__post_init__ when none are supplied. -/
def defaultRanges : ADSRRanges :=
  ⟨⟨1/1000, 2, 1/100⟩, ⟨1/1000, 4, 1/50⟩, ⟨0, 1, 1/50⟩, ⟨1/200, 8, 1/20⟩⟩

/-- State of the ADSR dataclass. -/
structure ADSR where
  attack : ℚ
  decay : ℚ
  sustain : ℚ
  release : ℚ
  ranges : ADSRRanges
deriving DecidableEq, Repr

/-- The ADSR produced by the default constructor followed by __post_init__. -/
def defaultADSR : ADSR := ⟨1/100, 1/10, 7/10, 1/2, defaultRanges⟩

/-- getattr(self, name). -/
def ADSR.get (a : ADSR) : ParamName → ℚ
  | .attack => a.attack
  | .decay => a.decay
  | .sustain => a.sustain
  | .release => a.release

/-- setattr(self, name, value), the raw field write used inside adjust. -/
def ADSR.setattr (a : ADSR) (name : ParamName) (value : ℚ) : ADSR :=
  match name with
  | .attack => { a with attack := value }
  | .decay => { a with decay := value }
  | .sustain => { a with sustain := value }
  | .release => { a with release := value }

/-- ADSR.set: clamp to the range, then write. -/
def ADSR.set (a : ADSR) (name : ParamName) (value : ℚ) : ADSR :=
  let rng := a.ranges.get name
  a.setattr name (max rng.minimum (min rng.maximum value))

/-- ADSR.adjust: step the named parameter by direction times step (times 5
when coarse), clamp to the range, report false and leave the state alone when
the clamped result is within epsilon of the current value, else commit. -/
def ADSR.adjust (a : ADSR) (name : ParamName) (direction : ℤ)
    (coarse : Bool) : Bool × ADSR :=
  let rng := a.ranges.get name
  let step := rng.step * (if coarse then 5 else 1)
  let current := a.get name
  let new_value := max rng.minimum (min rng.maximum
    (current + (direction : ℚ) * step))
  if |new_value - current| < eps then (false, a)
  else (true, a.setattr name new_value)

/-- Every parameter's current value lies inside its own range. -/
def ADSR.InRange (a : ADSR) : Prop :=
  ∀ n, (a.ranges.get n).minimum ≤ a.get n ∧ a.get n ≤ (a.ranges.get n).maximum

/-- Every range satisfies minimum ≤ maximum. -/
def ADSRRanges.WellFormed (r : ADSRRanges) : Prop :=
  ∀ n, (r.get n).minimum ≤ (r.get n).maximum

lemma ADSR.get_setattr_self (a : ADSR) (n : ParamName) (v : ℚ) :
    (a.setattr n v).get n = v := by
  cases n <;> rfl

lemma ADSR.get_setattr_ne (a : ADSR) {n m : ParamName} (h : m ≠ n) (v : ℚ) :
    (a.setattr n v).get m = a.get m := by
  cases n <;> cases m <;> first | rfl | exact absurd rfl h

lemma ADSR.ranges_setattr (a : ADSR) (n : ParamName) (v : ℚ) :
    (a.setattr n v).ranges = a.ranges := by
  cases n <;> rfl

lemma ADSR.ranges_adjust (a : ADSR) (n : ParamName) (d : ℤ) (c : Bool) :
    (a.adjust n d c).2.ranges = a.ranges := by
  unfold ADSR.adjust
  dsimp only
  split <;> split
  all_goals first | rfl | exact a.ranges_setattr n _

lemma ADSR.adjust_preserves_InRange {a : ADSR} (hw : a.ranges.WellFormed)
    (h : a.InRange) (n : ParamName) (d : ℤ) (c : Bool) :
    (a.adjust n d c).2.InRange := by
  unfold ADSR.adjust
  dsimp only
  split <;> split
  any_goals exact h
  all_goals
    intro m
    rw [ADSR.ranges_setattr]
    by_cases hm : m = n
    · subst hm
      rw [ADSR.get_setattr_self]
      exact ⟨le_max_left _ _, max_le (hw _) (min_le_left _ _)⟩
    · rw [ADSR.get_setattr_ne a hm]
      exact h m

/-- One element of an ADSR adjustment sequence. -/
def applyADSRAdjust (a : ADSR) (x : ParamName × ℤ × Bool) : ADSR :=
  (a.adjust x.1 x.2.1 x.2.2).2

lemma ADSR.foldl_preserves_InRange {a : ADSR} (hw : a.ranges.WellFormed)
    (h : a.InRange) (l : List (ParamName × ℤ × Bool)) :
    (l.foldl applyADSRAdjust a).InRange := by
  induction l generalizing a with
  | nil => exact h
  | cons x rest ih =>
    simp only [List.foldl_cons]
    exact ih (by rw [applyADSRAdjust, ADSR.ranges_adjust]; exact hw)
      (ADSR.adjust_preserves_InRange hw h x.1 x.2.1 x.2.2)

lemma defaultRanges_wf : ADSRRanges.WellFormed defaultRanges := by
  intro n; cases n <;> norm_num [ADSRRanges.get, defaultRanges]

lemma defaultADSR_InRange : defaultADSR.InRange := by
  intro n
  cases n <;> norm_num [ADSR.get, ADSRRanges.get, defaultADSR, defaultRanges]

/-! ### VoiceTracker -/

/-- State of the VoiceTracker: the keys of the OrderedDict in insertion
order, most recent last. -/
structure VoiceTracker where
  limit : ℕ
  voices : List ℕ
deriving DecidableEq, Repr

/-- VoiceTracker(limit). -/
def VoiceTracker.init (limit : ℕ) : VoiceTracker := ⟨limit, []⟩

/-- VoiceTracker.note_on: move_to_end when already tracked, else insert at
the most-recent position. -/
def VoiceTracker.note_on (t : VoiceTracker) (note : ℕ) : VoiceTracker :=
  if note ∈ t.voices then { t with voices := t.voices.erase note ++ [note] }
  else { t with voices := t.voices ++ [note] }

/-- VoiceTracker.note_off: pop(note, None), a no-op when absent. -/
def VoiceTracker.note_off (t : VoiceTracker) (note : ℕ) : VoiceTracker :=
  { t with voices := t.voices.erase note }

/-- VoiceTracker.count. -/
def VoiceTracker.count (t : VoiceTracker) : ℕ := t.voices.length

/-- VoiceTracker.active_notes: keys in insertion order, most recent last. -/
def VoiceTracker.active_notes (t : VoiceTracker) : List ℕ := t.voices

/-- A note on/off event fed to the tracker. -/
inductive VoiceEvent
  | on (note : ℕ)
  | off (note : ℕ)
deriving DecidableEq, Repr

/-- Apply one event to the tracker. -/
def VoiceTracker.applyEvent (t : VoiceTracker) : VoiceEvent → VoiceTracker
  | .on n => t.note_on n
  | .off n => t.note_off n

/-- The standard on/off semantics: the set of notes currently on. -/
def onSetStep (s : Finset ℕ) : VoiceEvent → Finset ℕ
  | .on n => insert n s
  | .off n => s.erase n

lemma VoiceTracker.note_on_nodup {t : VoiceTracker} (h : t.voices.Nodup)
    (n : ℕ) : (t.note_on n).voices.Nodup := by
  unfold VoiceTracker.note_on
  by_cases hm : n ∈ t.voices
  · simp only [hm, if_true]
    rw [List.nodup_append]
    refine ⟨h.erase n, List.nodup_singleton n, ?_⟩
    intro x hx hx1
    rw [List.mem_singleton] at hx1
    exact ((h.mem_erase_iff).1 hx).1 hx1
  · simp only [hm, if_false]
    rw [List.nodup_append]
    refine ⟨h, List.nodup_singleton n, ?_⟩
    intro x hx hx1
    rw [List.mem_singleton] at hx1
    subst hx1
    exact hm hx

lemma VoiceTracker.note_off_nodup {t : VoiceTracker} (h : t.voices.Nodup)
    (n : ℕ) : (t.note_off n).voices.Nodup := h.erase n

lemma VoiceTracker.mem_note_on {t : VoiceTracker} (h : t.voices.Nodup)
    (n x : ℕ) : x ∈ (t.note_on n).voices ↔ x = n ∨ x ∈ t.voices := by
  unfold VoiceTracker.note_on
  by_cases hm : n ∈ t.voices
  · simp only [hm, if_true, List.mem_append, List.mem_singleton,
      h.mem_erase_iff]
    constructor
    · rintro (⟨_, hx⟩ | hx)
      · exact Or.inr hx
      · exact Or.inl hx
    · rintro (hx | hx)
      · exact Or.inr hx
      · by_cases hxn : x = n
        · exact Or.inr hxn
        · exact Or.inl ⟨hxn, hx⟩
  · simp only [hm, if_false, List.mem_append, List.mem_singleton]
    tauto

lemma VoiceTracker.mem_note_off {t : VoiceTracker} (h : t.voices.Nodup)
    (n x : ℕ) : x ∈ (t.note_off n).voices ↔ x ≠ n ∧ x ∈ t.voices :=
  h.mem_erase_iff

/-! ### KeyboardNoteMapper -/

/-- The fixed key-to-note table (ASCII key codes of z s x d c v g b h n j m
and comma, mapped chromatically from middle C). -/
def KEY_MAP (key_code : ℕ) : Option ℕ :=
  if key_code = 122 then some 60
  else if key_code = 115 then some 61
  else if key_code = 120 then some 62
  else if key_code = 100 then some 63
  else if key_code = 99 then some 64
  else if key_code = 118 then some 65
  else if key_code = 103 then some 66
  else if key_code = 98 then some 67
  else if key_code = 104 then some 68
  else if key_code = 110 then some 69
  else if key_code = 106 then some 70
  else if key_code = 109 then some 71
  else if key_code = 44 then some 72
  else none

/-- Lookup d.get(note, False) in the per-note toggle dict. -/
def dictGet : List (ℕ × Bool) → ℕ → Bool
  | [], _ => false
  | p :: rest, k => if p.1 = k then p.2 else dictGet rest k

/-- Assignment d[note] = v in the per-note toggle dict: overwrite in place
when present, append when absent. -/
def dictSet : List (ℕ × Bool) → ℕ → Bool → List (ℕ × Bool)
  | [], k, v => [(k, v)]
  | p :: rest, k, v => if p.1 = k then (k, v) :: rest else p :: dictSet rest k v

/-- State of the KeyboardNoteMapper: self.active as an association list. -/
structure KeyboardNoteMapper where
  active : List (ℕ × Bool)
deriving DecidableEq, Repr

/-- KeyboardNoteMapper.translate: unmapped keys yield no translation and no
state change; a mapped key flips the per-note toggle and reports the new
state. -/
def KeyboardNoteMapper.translate (m : KeyboardNoteMapper) (key_code : ℕ) :
    Option (ℕ × Bool) × KeyboardNoteMapper :=
  match KEY_MAP key_code with
  | none => (none, m)
  | some note =>
    let state := dictGet m.active note
    (some (note, !state), ⟨dictSet m.active note (!state)⟩)

lemma dictGet_dictSet_self (l : List (ℕ × Bool)) (k : ℕ) (v : Bool) :
    dictGet (dictSet l k v) k = v := by
  induction l with
  | nil => simp [dictGet, dictSet]
  | cons p rest ih =>
    by_cases hp : p.1 = k
    · simp [dictSet, dictGet, hp]
    · simp [dictSet, dictGet, hp, ih]

/-! ### SamplerTUI: messages, log, send layer, handlers, dispatch -/

/-- An outbound OSC message together with its payload. -/
inductive Msg
  | note_on (sample_key : String) (note : ℕ) (velocity : ℚ)
  | note_off (sample_key : String) (note : ℕ)
  | param (name : ParamName) (value : ℚ)
  | loop (start end_ : ℚ) (revision : ℤ)
deriving DecidableEq, Repr

/-- MessageLog.push (timestamp abstracted away): append, evict the oldest
entry past max_entries = 10. -/
def pushLog (entries : List String) (text : String) : List String :=
  let l := entries ++ [text]
  if 10 < l.length then l.drop 1 else l

/-- Parameter names as the strings used in log lines. -/
def ParamName.str : ParamName → String
  | .attack => "attack"
  | .decay => "decay"
  | .sustain => "sustain"
  | .release => "release"

/-- The transport: maps an attempted send to none (delivered) or
some error text (the send call raised an OSError). -/
def Net : Type := Msg → Option String

/-- State of the SamplerTUI controller (display surface omitted: rendering
reads state and writes no engine state). -/
structure SamplerTUI where
  sample_key : String
  voice_limit : ℕ
  default_velocity : ℚ
  adsr : ADSR
  loop_params : LoopParameters
  msg_log : List String
  voice_tracker : VoiceTracker
  keyboard_mapper : KeyboardNoteMapper
deriving DecidableEq, Repr

/-- SamplerTUI._send_note_on: on transport error, log and return without
touching the tracker; on success, track the note and log the event. -/
def SamplerTUI.send_note_on (net : Net) (s : SamplerTUI) (note : ℕ)
    (velocity : ℚ) (source : String) : SamplerTUI × List Msg :=
  let m := Msg.note_on s.sample_key note velocity
  match net m with
  | some err =>
    ({ s with msg_log := pushLog s.msg_log ("Failed to send note_on: " ++ err) },
      [])
  | none =>
    ({ s with
        voice_tracker := s.voice_tracker.note_on note,
        msg_log := pushLog s.msg_log (source ++ " note_on " ++ toString note) },
      [m])

/-- SamplerTUI._send_note_off: on transport error, log and return without
touching the tracker; on success, untrack the note and log the event. -/
def SamplerTUI.send_note_off (net : Net) (s : SamplerTUI) (note : ℕ)
    (source : String) : SamplerTUI × List Msg :=
  let m := Msg.note_off s.sample_key note
  match net m with
  | some err =>
    ({ s with msg_log := pushLog s.msg_log ("Failed to send note_off: " ++ err) },
      [])
  | none =>
    ({ s with
        voice_tracker := s.voice_tracker.note_off note,
        msg_log := pushLog s.msg_log (source ++ " note_off " ++ toString note) },
      [m])

/-- SamplerTUI._send_param_update: on transport error, log; no other state. -/
def SamplerTUI.send_param_update (net : Net) (s : SamplerTUI)
    (param : ParamName) (value : ℚ) : SamplerTUI × List Msg :=
  let m := Msg.param param value
  match net m with
  | some err =>
    ({ s with
        msg_log := pushLog s.msg_log ("Failed to send param update: " ++ err) },
      [])
  | none => (s, [m])

/-- SamplerTUI._send_loop_update: send the loop payload; on transport error,
log; on success, log the loop change. -/
def SamplerTUI.send_loop_update (net : Net) (s : SamplerTUI)
    (reason : String) : SamplerTUI × List Msg :=
  let m := Msg.loop s.loop_params.start s.loop_params.end_
    s.loop_params.revision
  match net m with
  | some err =>
    ({ s with msg_log := pushLog s.msg_log ("Failed to update loop: " ++ err) },
      [])
  | none =>
    ({ s with msg_log := pushLog s.msg_log ("Loop " ++ reason) }, [m])

/-- The ADSR key bindings of _handle_adsr_keys (ASCII codes of
t T y Y u U i I). -/
def adsrKeyMap (key : ℕ) : Option (ParamName × ℤ × Bool) :=
  if key = 116 then some (.attack, -1, false)
  else if key = 84 then some (.attack, 1, true)
  else if key = 121 then some (.decay, -1, false)
  else if key = 89 then some (.decay, 1, true)
  else if key = 117 then some (.sustain, -1, false)
  else if key = 85 then some (.sustain, 1, true)
  else if key = 105 then some (.release, -1, false)
  else if key = 73 then some (.release, 1, true)
  else none

/-- SamplerTUI._handle_adsr_keys: a matched key is always consumed
(returns true); only a committed adjustment sends an update and logs. -/
def SamplerTUI.handle_adsr_keys (net : Net) (s : SamplerTUI) (key : ℕ) :
    Bool × SamplerTUI × List Msg :=
  match adsrKeyMap key with
  | none => (false, s, [])
  | some (name, direction, coarse) =>
    let r := s.adsr.adjust name direction coarse
    if r.1 then
      let s1 := { s with adsr := r.2 }
      let value := r.2.get name
      let r2 := s1.send_param_update net name value
      (true,
        { r2.1 with msg_log := pushLog r2.1.msg_log ("Param " ++ name.str) },
        r2.2)
    else (true, s, [])

/-- One loop-window key binding: which bound it moves, whether the coarse
step applies, and whether the delta is negative. -/
structure LoopKey where
  isEnd : Bool
  coarse : Bool
  neg : Bool
deriving DecidableEq, Repr

/-- The loop-window key bindings of _handle_loop_keys (ASCII codes of
a A d D j J l L, plus the curses arrow-key codes 258-261). -/
def loopKeyMap (key : ℕ) : Option LoopKey :=
  if key = 97 ∨ key = 260 then some ⟨false, false, true⟩
  else if key = 65 then some ⟨false, true, true⟩
  else if key = 100 ∨ key = 261 then some ⟨false, false, false⟩
  else if key = 68 then some ⟨false, true, false⟩
  else if key = 106 ∨ key = 258 then some ⟨true, false, true⟩
  else if key = 74 then some ⟨true, true, true⟩
  else if key = 108 ∨ key = 259 then some ⟨true, false, false⟩
  else if key = 76 then some ⟨true, true, false⟩
  else none

/-- SamplerTUI._adjust_loop_start: send only when the adjustment commits;
return whether it committed. -/
def SamplerTUI.adjust_loop_start (net : Net) (s : SamplerTUI) (delta : ℚ) :
    Bool × SamplerTUI × List Msg :=
  let r := s.loop_params.adjust_start delta
  if r.1 then
    let r2 := SamplerTUI.send_loop_update net { s with loop_params := r.2 } "start"
    (true, r2.1, r2.2)
  else (false, s, [])

/-- SamplerTUI._adjust_loop_end: send only when the adjustment commits;
return whether it committed. -/
def SamplerTUI.adjust_loop_end (net : Net) (s : SamplerTUI) (delta : ℚ) :
    Bool × SamplerTUI × List Msg :=
  let r := s.loop_params.adjust_end delta
  if r.1 then
    let r2 := SamplerTUI.send_loop_update net { s with loop_params := r.2 } "end"
    (true, r2.1, r2.2)
  else (false, s, [])

/-- SamplerTUI._handle_loop_keys: route to the matching adjuster and return
its result; an unmatched key returns false. -/
def SamplerTUI.handle_loop_keys (net : Net) (s : SamplerTUI) (key : ℕ) :
    Bool × SamplerTUI × List Msg :=
  match loopKeyMap key with
  | none => (false, s, [])
  | some k =>
    let mag := if k.coarse then s.loop_params.coarse_step else s.loop_params.step
    let delta := if k.neg then -mag else mag
    if k.isEnd then s.adjust_loop_end net delta else s.adjust_loop_start net delta

/-- SamplerTUI._handle_keyboard_note: translate the key; on a translation,
send note-on with the default velocity or note-off, and report consumed. -/
def SamplerTUI.handle_keyboard_note (net : Net) (s : SamplerTUI) (key : ℕ) :
    Bool × SamplerTUI × List Msg :=
  let t := s.keyboard_mapper.translate key
  match t.1 with
  | none => (false, s, [])
  | some (note, is_on) =>
    let s1 := { s with keyboard_mapper := t.2 }
    if is_on then
      let r := s1.send_note_on net note s1.default_velocity "KEY"
      (true, r.1, r.2)
    else
      let r := s1.send_note_off net note "KEY"
      (true, r.1, r.2)

/-- The iteration inside _panic_all_notes_off over the snapshot of active
notes: send note-off for each in order, accumulating the messages. -/
def SamplerTUI.panicLoop (net : Net) (s : SamplerTUI) :
    List ℕ → SamplerTUI × List Msg
  | [] => (s, [])
  | n :: rest =>
    let r1 := s.send_note_off net n "PANIC"
    let r2 := SamplerTUI.panicLoop net r1.1 rest
    (r2.1, r1.2 ++ r2.2)

/-- SamplerTUI._panic_all_notes_off: snapshot the active notes; if none,
log only; else release each and log the count. -/
def SamplerTUI.panic_all_notes_off (net : Net) (s : SamplerTUI) :
    SamplerTUI × List Msg :=
  let active := s.voice_tracker.active_notes
  if active.isEmpty then
    ({ s with msg_log := pushLog s.msg_log "PANIC: no active notes" }, [])
  else
    let r := s.panicLoop net active
    ({ r.1 with msg_log := pushLog r.1.msg_log "PANIC: sent note_off" }, r.2)

/-- One iteration of the key dispatch in SamplerTUI.run for a delivered key:
quit logging, then panic, then loop keys, then ADSR keys, then keyboard
notes; the result is the new state and the messages sent. -/
def SamplerTUI.handleKey (net : Net) (s : SamplerTUI) (key : ℕ) :
    SamplerTUI × List Msg :=
  if key = 113 ∨ key = 81 then
    ({ s with msg_log := pushLog s.msg_log "Quitting" }, [])
  else if key = 59 then s.panic_all_notes_off net
  else
    let rL := s.handle_loop_keys net key
    if rL.1 then (rL.2.1, rL.2.2)
    else
      let rA := rL.2.1.handle_adsr_keys net key
      if rA.1 then (rA.2.1, rA.2.2)
      else
        let rK := rA.2.1.handle_keyboard_note net key
        (rK.2.1, rK.2.2)

/-- SamplerTUI._send_initial_params: one parameter update per ADSR item, in
items() order. -/
def SamplerTUI.send_initial_params (net : Net) (s : SamplerTUI) :
    SamplerTUI × List Msg :=
  let r1 := s.send_param_update net .attack s.adsr.attack
  let r2 := r1.1.send_param_update net .decay r1.1.adsr.decay
  let r3 := r2.1.send_param_update net .sustain r2.1.adsr.sustain
  let r4 := r3.1.send_param_update net .release r3.1.adsr.release
  (r4.1, r1.2 ++ r2.2 ++ r3.2 ++ r4.2)

/-- SamplerTUI.__init__ (curses/MIDI wiring omitted): clamp the default
velocity into [0, 1], start with an empty log, tracker and mapper, then
send the initial parameter values and the initial loop update. -/
def SamplerTUI.construct (net : Net) (sample_key : String) (voice_limit : ℕ)
    (default_velocity : ℚ) (adsr : ADSR) (loop_params : LoopParameters) :
    SamplerTUI × List Msg :=
  let s0 : SamplerTUI :=
    { sample_key := sample_key
      voice_limit := voice_limit
      default_velocity := max 0 (min 1 default_velocity)
      adsr := adsr
      loop_params := loop_params
      msg_log := []
      voice_tracker := VoiceTracker.init voice_limit
      keyboard_mapper := ⟨[]⟩ }
  let r1 := s0.send_initial_params net
  let r2 := r1.1.send_loop_update net "init"
  (r2.1, r1.2 ++ r2.2)

/-- Feed a list of delivered key codes through the dispatch, accumulating
all outbound messages. -/
def SamplerTUI.runKeys (net : Net) (s : SamplerTUI) :
    List ℕ → SamplerTUI × List Msg
  | [] => (s, [])
  | k :: rest =>
    let r1 := s.handleKey net k
    let r2 := SamplerTUI.runKeys net r1.1 rest
    (r2.1, r1.2 ++ r2.2)

/-! ### Frame lemmas for the send layer and handlers -/

@[simp] lemma send_note_on_sample_key (net : Net) (s : SamplerTUI) (n : ℕ)
    (v : ℚ) (src : String) :
    (s.send_note_on net n v src).1.sample_key = s.sample_key := by
  unfold SamplerTUI.send_note_on
  dsimp only
  cases net (Msg.note_on s.sample_key n v) <;> rfl

@[simp] lemma send_note_on_default_velocity (net : Net) (s : SamplerTUI)
    (n : ℕ) (v : ℚ) (src : String) :
    (s.send_note_on net n v src).1.default_velocity = s.default_velocity := by
  unfold SamplerTUI.send_note_on
  dsimp only
  cases net (Msg.note_on s.sample_key n v) <;> rfl

@[simp] lemma send_note_on_adsr (net : Net) (s : SamplerTUI) (n : ℕ) (v : ℚ)
    (src : String) : (s.send_note_on net n v src).1.adsr = s.adsr := by
  unfold SamplerTUI.send_note_on
  dsimp only
  cases net (Msg.note_on s.sample_key n v) <;> rfl

@[simp] lemma send_note_on_loop_params (net : Net) (s : SamplerTUI) (n : ℕ)
    (v : ℚ) (src : String) :
    (s.send_note_on net n v src).1.loop_params = s.loop_params := by
  unfold SamplerTUI.send_note_on
  dsimp only
  cases net (Msg.note_on s.sample_key n v) <;> rfl

@[simp] lemma send_note_on_keyboard_mapper (net : Net) (s : SamplerTUI)
    (n : ℕ) (v : ℚ) (src : String) :
    (s.send_note_on net n v src).1.keyboard_mapper = s.keyboard_mapper := by
  unfold SamplerTUI.send_note_on
  dsimp only
  cases net (Msg.note_on s.sample_key n v) <;> rfl

@[simp] lemma send_note_off_sample_key (net : Net) (s : SamplerTUI) (n : ℕ)
    (src : String) :
    (s.send_note_off net n src).1.sample_key = s.sample_key := by
  unfold SamplerTUI.send_note_off
  dsimp only
  cases net (Msg.note_off s.sample_key n) <;> rfl

@[simp] lemma send_note_off_default_velocity (net : Net) (s : SamplerTUI)
    (n : ℕ) (src : String) :
    (s.send_note_off net n src).1.default_velocity = s.default_velocity := by
  unfold SamplerTUI.send_note_off
  dsimp only
  cases net (Msg.note_off s.sample_key n) <;> rfl

@[simp] lemma send_note_off_adsr (net : Net) (s : SamplerTUI) (n : ℕ)
    (src : String) : (s.send_note_off net n src).1.adsr = s.adsr := by
  unfold SamplerTUI.send_note_off
  dsimp only
  cases net (Msg.note_off s.sample_key n) <;> rfl

@[simp] lemma send_note_off_loop_params (net : Net) (s : SamplerTUI) (n : ℕ)
    (src : String) :
    (s.send_note_off net n src).1.loop_params = s.loop_params := by
  unfold SamplerTUI.send_note_off
  dsimp only
  cases net (Msg.note_off s.sample_key n) <;> rfl

@[simp] lemma send_note_off_keyboard_mapper (net : Net) (s : SamplerTUI)
    (n : ℕ) (src : String) :
    (s.send_note_off net n src).1.keyboard_mapper = s.keyboard_mapper := by
  unfold SamplerTUI.send_note_off
  dsimp only
  cases net (Msg.note_off s.sample_key n) <;> rfl

@[simp] lemma send_param_update_sample_key (net : Net) (s : SamplerTUI)
    (p : ParamName) (v : ℚ) :
    (s.send_param_update net p v).1.sample_key = s.sample_key := by
  unfold SamplerTUI.send_param_update
  dsimp only
  cases net (Msg.param p v) <;> rfl

@[simp] lemma send_param_update_default_velocity (net : Net) (s : SamplerTUI)
    (p : ParamName) (v : ℚ) :
    (s.send_param_update net p v).1.default_velocity = s.default_velocity := by
  unfold SamplerTUI.send_param_update
  dsimp only
  cases net (Msg.param p v) <;> rfl

@[simp] lemma send_param_update_adsr (net : Net) (s : SamplerTUI)
    (p : ParamName) (v : ℚ) :
    (s.send_param_update net p v).1.adsr = s.adsr := by
  unfold SamplerTUI.send_param_update
  dsimp only
  cases net (Msg.param p v) <;> rfl

@[simp] lemma send_param_update_loop_params (net : Net) (s : SamplerTUI)
    (p : ParamName) (v : ℚ) :
    (s.send_param_update net p v).1.loop_params = s.loop_params := by
  unfold SamplerTUI.send_param_update
  dsimp only
  cases net (Msg.param p v) <;> rfl

@[simp] lemma send_param_update_voice_tracker (net : Net) (s : SamplerTUI)
    (p : ParamName) (v : ℚ) :
    (s.send_param_update net p v).1.voice_tracker = s.voice_tracker := by
  unfold SamplerTUI.send_param_update
  dsimp only
  cases net (Msg.param p v) <;> rfl

@[simp] lemma send_param_update_keyboard_mapper (net : Net) (s : SamplerTUI)
    (p : ParamName) (v : ℚ) :
    (s.send_param_update net p v).1.keyboard_mapper = s.keyboard_mapper := by
  unfold SamplerTUI.send_param_update
  dsimp only
  cases net (Msg.param p v) <;> rfl

@[simp] lemma send_loop_update_sample_key (net : Net) (s : SamplerTUI)
    (reason : String) :
    (s.send_loop_update net reason).1.sample_key = s.sample_key := by
  unfold SamplerTUI.send_loop_update
  dsimp only
  cases net (Msg.loop s.loop_params.start s.loop_params.end_
    s.loop_params.revision) <;> rfl

@[simp] lemma send_loop_update_default_velocity (net : Net) (s : SamplerTUI)
    (reason : String) :
    (s.send_loop_update net reason).1.default_velocity = s.default_velocity := by
  unfold SamplerTUI.send_loop_update
  dsimp only
  cases net (Msg.loop s.loop_params.start s.loop_params.end_
    s.loop_params.revision) <;> rfl

@[simp] lemma send_loop_update_adsr (net : Net) (s : SamplerTUI)
    (reason : String) : (s.send_loop_update net reason).1.adsr = s.adsr := by
  unfold SamplerTUI.send_loop_update
  dsimp only
  cases net (Msg.loop s.loop_params.start s.loop_params.end_
    s.loop_params.revision) <;> rfl

@[simp] lemma send_loop_update_loop_params (net : Net) (s : SamplerTUI)
    (reason : String) :
    (s.send_loop_update net reason).1.loop_params = s.loop_params := by
  unfold SamplerTUI.send_loop_update
  dsimp only
  cases net (Msg.loop s.loop_params.start s.loop_params.end_
    s.loop_params.revision) <;> rfl

@[simp] lemma send_loop_update_voice_tracker (net : Net) (s : SamplerTUI)
    (reason : String) :
    (s.send_loop_update net reason).1.voice_tracker = s.voice_tracker := by
  unfold SamplerTUI.send_loop_update
  dsimp only
  cases net (Msg.loop s.loop_params.start s.loop_params.end_
    s.loop_params.revision) <;> rfl

@[simp] lemma send_loop_update_keyboard_mapper (net : Net) (s : SamplerTUI)
    (reason : String) :
    (s.send_loop_update net reason).1.keyboard_mapper = s.keyboard_mapper := by
  unfold SamplerTUI.send_loop_update
  dsimp only
  cases net (Msg.loop s.loop_params.start s.loop_params.end_
    s.loop_params.revision) <;> rfl

/-! ### Message-shape lemmas and handler-level lemmas -/

lemma send_note_on_msgs (net : Net) (s : SamplerTUI) (n : ℕ) (v : ℚ)
    (src : String) :
    ∀ m ∈ (s.send_note_on net n v src).2, m = Msg.note_on s.sample_key n v := by
  unfold SamplerTUI.send_note_on
  dsimp only
  cases net (Msg.note_on s.sample_key n v) <;> simp

lemma send_note_off_msgs (net : Net) (s : SamplerTUI) (n : ℕ) (src : String) :
    ∀ m ∈ (s.send_note_off net n src).2, m = Msg.note_off s.sample_key n := by
  unfold SamplerTUI.send_note_off
  dsimp only
  cases net (Msg.note_off s.sample_key n) <;> simp

lemma send_param_update_msgs (net : Net) (s : SamplerTUI) (p : ParamName)
    (v : ℚ) :
    ∀ m ∈ (s.send_param_update net p v).2, m = Msg.param p v := by
  unfold SamplerTUI.send_param_update
  dsimp only
  cases net (Msg.param p v) <;> simp

lemma send_loop_update_msgs (net : Net) (s : SamplerTUI) (reason : String) :
    ∀ m ∈ (s.send_loop_update net reason).2,
      m = Msg.loop s.loop_params.start s.loop_params.end_
        s.loop_params.revision := by
  unfold SamplerTUI.send_loop_update
  dsimp only
  cases net (Msg.loop s.loop_params.start s.loop_params.end_
    s.loop_params.revision) <;> simp

lemma handle_loop_keys_none (net : Net) (s : SamplerTUI) {key : ℕ}
    (h : loopKeyMap key = none) :
    s.handle_loop_keys net key = (false, s, []) := by
  unfold SamplerTUI.handle_loop_keys
  rw [h]

lemma handle_loop_keys_false_id (net : Net) (s : SamplerTUI) (key : ℕ)
    (hf : (s.handle_loop_keys net key).1 = false) :
    s.handle_loop_keys net key = (false, s, []) := by
  unfold SamplerTUI.handle_loop_keys SamplerTUI.adjust_loop_end
    SamplerTUI.adjust_loop_start at hf ⊢
  cases h : loopKeyMap key with
  | none => rfl
  | some k =>
    dsimp only at hf ⊢
    repeat' split at hf
    all_goals simp_all

lemma handle_loop_keys_adsr (net : Net) (s : SamplerTUI) (key : ℕ) :
    (s.handle_loop_keys net key).2.1.adsr = s.adsr := by
  unfold SamplerTUI.handle_loop_keys SamplerTUI.adjust_loop_end
    SamplerTUI.adjust_loop_start
  cases loopKeyMap key with
  | none => rfl
  | some k =>
    dsimp only
    repeat' split
    all_goals simp

lemma handle_loop_keys_keyboard_mapper (net : Net) (s : SamplerTUI) (key : ℕ) :
    (s.handle_loop_keys net key).2.1.keyboard_mapper = s.keyboard_mapper := by
  unfold SamplerTUI.handle_loop_keys SamplerTUI.adjust_loop_end
    SamplerTUI.adjust_loop_start
  cases loopKeyMap key with
  | none => rfl
  | some k =>
    dsimp only
    repeat' split
    all_goals simp

lemma handle_loop_keys_voice_tracker (net : Net) (s : SamplerTUI) (key : ℕ) :
    (s.handle_loop_keys net key).2.1.voice_tracker = s.voice_tracker := by
  unfold SamplerTUI.handle_loop_keys SamplerTUI.adjust_loop_end
    SamplerTUI.adjust_loop_start
  cases loopKeyMap key with
  | none => rfl
  | some k =>
    dsimp only
    repeat' split
    all_goals simp

lemma handle_loop_keys_default_velocity (net : Net) (s : SamplerTUI)
    (key : ℕ) :
    (s.handle_loop_keys net key).2.1.default_velocity = s.default_velocity := by
  unfold SamplerTUI.handle_loop_keys SamplerTUI.adjust_loop_end
    SamplerTUI.adjust_loop_start
  cases loopKeyMap key with
  | none => rfl
  | some k =>
    dsimp only
    repeat' split
    all_goals simp

lemma handle_loop_keys_msgs (net : Net) (s : SamplerTUI) (key : ℕ) :
    ∀ m ∈ (s.handle_loop_keys net key).2.2, ∃ a b r, m = Msg.loop a b r := by
  intro m hm
  unfold SamplerTUI.handle_loop_keys SamplerTUI.adjust_loop_end
    SamplerTUI.adjust_loop_start at hm
  dsimp only at hm
  repeat' split at hm
  all_goals dsimp only at hm
  all_goals first
    | exact absurd hm (List.not_mem_nil m)
    | exact ⟨_, _, _, send_loop_update_msgs _ _ _ m hm⟩

lemma handle_adsr_keys_none (net : Net) (s : SamplerTUI) {key : ℕ}
    (h : adsrKeyMap key = none) :
    s.handle_adsr_keys net key = (false, s, []) := by
  unfold SamplerTUI.handle_adsr_keys
  rw [h]

lemma handle_adsr_keys_consumes (net : Net) (s : SamplerTUI) {key : ℕ}
    {e : ParamName × ℤ × Bool} (h : adsrKeyMap key = some e) :
    (s.handle_adsr_keys net key).1 = true := by
  unfold SamplerTUI.handle_adsr_keys
  rw [h]
  dsimp only
  split <;> rfl

lemma handle_adsr_keys_keyboard_mapper (net : Net) (s : SamplerTUI) (key : ℕ) :
    (s.handle_adsr_keys net key).2.1.keyboard_mapper = s.keyboard_mapper := by
  unfold SamplerTUI.handle_adsr_keys
  cases adsrKeyMap key with
  | none => rfl
  | some e =>
    dsimp only
    repeat' split
    all_goals simp

lemma handle_adsr_keys_voice_tracker (net : Net) (s : SamplerTUI) (key : ℕ) :
    (s.handle_adsr_keys net key).2.1.voice_tracker = s.voice_tracker := by
  unfold SamplerTUI.handle_adsr_keys
  cases adsrKeyMap key with
  | none => rfl
  | some e =>
    dsimp only
    repeat' split
    all_goals simp

lemma handle_adsr_keys_loop_params (net : Net) (s : SamplerTUI) (key : ℕ) :
    (s.handle_adsr_keys net key).2.1.loop_params = s.loop_params := by
  unfold SamplerTUI.handle_adsr_keys
  cases adsrKeyMap key with
  | none => rfl
  | some e =>
    dsimp only
    repeat' split
    all_goals simp

lemma handle_adsr_keys_default_velocity (net : Net) (s : SamplerTUI)
    (key : ℕ) :
    (s.handle_adsr_keys net key).2.1.default_velocity = s.default_velocity := by
  unfold SamplerTUI.handle_adsr_keys
  cases adsrKeyMap key with
  | none => rfl
  | some e =>
    dsimp only
    repeat' split
    all_goals simp

lemma handle_adsr_keys_msgs (net : Net) (s : SamplerTUI) (key : ℕ) :
    ∀ m ∈ (s.handle_adsr_keys net key).2.2, ∃ p v, m = Msg.param p v := by
  intro m hm
  unfold SamplerTUI.handle_adsr_keys at hm
  dsimp only at hm
  repeat' split at hm
  all_goals dsimp only at hm
  all_goals first
    | exact absurd hm (List.not_mem_nil m)
    | exact ⟨_, _, send_param_update_msgs _ _ _ _ m hm⟩

lemma handle_keyboard_note_adsr (net : Net) (s : SamplerTUI) (key : ℕ) :
    (s.handle_keyboard_note net key).2.1.adsr = s.adsr := by
  unfold SamplerTUI.handle_keyboard_note
  dsimp only
  cases (s.keyboard_mapper.translate key).1 with
  | none => rfl
  | some t =>
    obtain ⟨note, is_on⟩ := t
    dsimp only
    repeat' split
    all_goals simp

lemma handle_keyboard_note_loop_params (net : Net) (s : SamplerTUI)
    (key : ℕ) :
    (s.handle_keyboard_note net key).2.1.loop_params = s.loop_params := by
  unfold SamplerTUI.handle_keyboard_note
  dsimp only
  cases (s.keyboard_mapper.translate key).1 with
  | none => rfl
  | some t =>
    obtain ⟨note, is_on⟩ := t
    dsimp only
    repeat' split
    all_goals simp

lemma handle_keyboard_note_default_velocity (net : Net) (s : SamplerTUI)
    (key : ℕ) :
    (s.handle_keyboard_note net key).2.1.default_velocity =
      s.default_velocity := by
  unfold SamplerTUI.handle_keyboard_note
  dsimp only
  cases (s.keyboard_mapper.translate key).1 with
  | none => rfl
  | some t =>
    obtain ⟨note, is_on⟩ := t
    dsimp only
    repeat' split
    all_goals simp

lemma handle_keyboard_note_vel (net : Net) (s : SamplerTUI) (key : ℕ) :
    ∀ sk n v, Msg.note_on sk n v ∈ (s.handle_keyboard_note net key).2.2 →
      v = s.default_velocity := by
  unfold SamplerTUI.handle_keyboard_note
  dsimp only
  cases (s.keyboard_mapper.translate key).1 with
  | none => simp
  | some t =>
    obtain ⟨note, is_on⟩ := t
    dsimp only
    intro sk n v
    split
    · intro hm
      have h2 := send_note_on_msgs net _ note _ "KEY" _ hm
      cases h2
      rfl
    · intro hm
      have h2 := send_note_off_msgs net _ note "KEY" _ hm
      exact Msg.noConfusion h2

/-! ### Panic, dispatch and run-level lemmas -/

lemma panicLoop_keyboard_mapper (net : Net) :
    ∀ (l : List ℕ) (s : SamplerTUI),
      (SamplerTUI.panicLoop net s l).1.keyboard_mapper = s.keyboard_mapper := by
  intro l
  induction l with
  | nil => intro s; rfl
  | cons n rest ih =>
    intro s
    unfold SamplerTUI.panicLoop
    dsimp only
    rw [ih, send_note_off_keyboard_mapper]

lemma panicLoop_default_velocity (net : Net) :
    ∀ (l : List ℕ) (s : SamplerTUI),
      (SamplerTUI.panicLoop net s l).1.default_velocity = s.default_velocity := by
  intro l
  induction l with
  | nil => intro s; rfl
  | cons n rest ih =>
    intro s
    unfold SamplerTUI.panicLoop
    dsimp only
    rw [ih, send_note_off_default_velocity]

lemma panicLoop_sample_key (net : Net) :
    ∀ (l : List ℕ) (s : SamplerTUI),
      (SamplerTUI.panicLoop net s l).1.sample_key = s.sample_key := by
  intro l
  induction l with
  | nil => intro s; rfl
  | cons n rest ih =>
    intro s
    unfold SamplerTUI.panicLoop
    dsimp only
    rw [ih, send_note_off_sample_key]

lemma panicLoop_msgs (net : Net) :
    ∀ (l : List ℕ) (s : SamplerTUI), ∀ m ∈ (SamplerTUI.panicLoop net s l).2,
      ∃ sk n, m = Msg.note_off sk n := by
  intro l
  induction l with
  | nil => intro s m hm; exact absurd hm (List.not_mem_nil m)
  | cons n rest ih =>
    intro s m hm
    unfold SamplerTUI.panicLoop at hm
    dsimp only at hm
    rcases List.mem_append.1 hm with h | h
    · exact ⟨_, _, send_note_off_msgs net s n "PANIC" m h⟩
    · exact ih _ m h

lemma panic_all_keyboard_mapper (net : Net) (s : SamplerTUI) :
    (s.panic_all_notes_off net).1.keyboard_mapper = s.keyboard_mapper := by
  unfold SamplerTUI.panic_all_notes_off
  dsimp only
  split
  · rfl
  · exact panicLoop_keyboard_mapper net _ s

lemma panic_all_default_velocity (net : Net) (s : SamplerTUI) :
    (s.panic_all_notes_off net).1.default_velocity = s.default_velocity := by
  unfold SamplerTUI.panic_all_notes_off
  dsimp only
  split
  · rfl
  · exact panicLoop_default_velocity net _ s

lemma panic_all_msgs (net : Net) (s : SamplerTUI) :
    ∀ m ∈ (s.panic_all_notes_off net).2, ∃ sk n, m = Msg.note_off sk n := by
  unfold SamplerTUI.panic_all_notes_off
  dsimp only
  split
  · intro m hm; exact absurd hm (List.not_mem_nil m)
  · intro m hm; exact panicLoop_msgs net _ s m hm

lemma handleKey_default_velocity (net : Net) (s : SamplerTUI) (key : ℕ) :
    (s.handleKey net key).1.default_velocity = s.default_velocity := by
  unfold SamplerTUI.handleKey
  dsimp only
  split
  · rfl
  split
  · exact panic_all_default_velocity net s
  split
  · exact handle_loop_keys_default_velocity net s key
  split
  · rw [handle_adsr_keys_default_velocity, handle_loop_keys_default_velocity]
  · rw [handle_keyboard_note_default_velocity,
      handle_adsr_keys_default_velocity, handle_loop_keys_default_velocity]

lemma handleKey_note_on_vel (net : Net) (s : SamplerTUI) (key : ℕ) :
    ∀ sk n v, Msg.note_on sk n v ∈ (s.handleKey net key).2 →
      v = s.default_velocity := by
  intro sk n v hm
  unfold SamplerTUI.handleKey at hm
  dsimp only at hm
  split at hm
  · exact absurd hm (List.not_mem_nil _)
  split at hm
  · obtain ⟨_, _, h⟩ := panic_all_msgs net s _ hm
    exact Msg.noConfusion h
  split at hm
  · obtain ⟨_, _, _, h⟩ := handle_loop_keys_msgs net s key _ hm
    exact Msg.noConfusion h
  split at hm
  · obtain ⟨_, _, h⟩ := handle_adsr_keys_msgs net _ key _ hm
    exact Msg.noConfusion h
  · have hv := handle_keyboard_note_vel net _ key sk n v hm
    rw [hv, handle_adsr_keys_default_velocity, handle_loop_keys_default_velocity]

lemma runKeys_note_on_vel (net : Net) :
    ∀ (keys : List ℕ) (s : SamplerTUI) (sk : String) (n : ℕ) (v : ℚ),
      Msg.note_on sk n v ∈ (SamplerTUI.runKeys net s keys).2 →
      v = s.default_velocity := by
  intro keys
  induction keys with
  | nil => intro s sk n v hm; exact absurd hm (List.not_mem_nil _)
  | cons k rest ih =>
    intro s sk n v hm
    unfold SamplerTUI.runKeys at hm
    dsimp only at hm
    rcases List.mem_append.1 hm with h | h
    · exact handleKey_note_on_vel net s k sk n v h
    · rw [ih _ sk n v h, handleKey_default_velocity]

lemma construct_default_velocity (net : Net) (sk : String) (vl : ℕ) (v : ℚ)
    (adsr : ADSR) (lp : LoopParameters) :
    (SamplerTUI.construct net sk vl v adsr lp).1.default_velocity =
      max 0 (min 1 v) := by
  unfold SamplerTUI.construct SamplerTUI.send_initial_params
  dsimp only
  rw [send_loop_update_default_velocity, send_param_update_default_velocity,
    send_param_update_default_velocity, send_param_update_default_velocity,
    send_param_update_default_velocity]

/-! ### VoiceTracker run lemmas -/

lemma VoiceTracker.run_spec :
    ∀ (evs : List VoiceEvent) (t : VoiceTracker), t.voices.Nodup →
      (evs.foldl VoiceTracker.applyEvent t).voices.Nodup ∧
      (evs.foldl VoiceTracker.applyEvent t).voices.toFinset =
        evs.foldl onSetStep t.voices.toFinset := by
  intro evs
  induction evs with
  | nil => intro t h; exact ⟨h, rfl⟩
  | cons e rest ih =>
    intro t h
    simp only [List.foldl_cons]
    have hstep : (t.applyEvent e).voices.Nodup ∧
        (t.applyEvent e).voices.toFinset = onSetStep t.voices.toFinset e := by
      rcases e with n | n
      · refine ⟨t.note_on_nodup h n, ?_⟩
        ext x
        simp only [VoiceTracker.applyEvent, onSetStep, List.mem_toFinset,
          VoiceTracker.mem_note_on h, Finset.mem_insert]
      · refine ⟨t.note_off_nodup h n, ?_⟩
        ext x
        simp only [VoiceTracker.applyEvent, onSetStep, List.mem_toFinset,
          VoiceTracker.mem_note_off h, Finset.mem_erase]
    obtain ⟨h1, h2⟩ := ih (t.applyEvent e) hstep.1
    exact ⟨h1, by rw [h2, hstep.2]⟩

lemma VoiceTracker.note_on_getLast {t : VoiceTracker} (n : ℕ) :
    (t.note_on n).active_notes.getLast? = some n := by
  unfold VoiceTracker.note_on VoiceTracker.active_notes
  split <;> simp

lemma VoiceTracker.note_on_count_mem {t : VoiceTracker} {n : ℕ}
    (hm : n ∈ t.voices) : (t.note_on n).count = t.count := by
  unfold VoiceTracker.note_on VoiceTracker.count
  rw [if_pos hm]
  dsimp only
  rw [List.length_append, List.length_singleton]
  exact List.length_erase_add_one hm

lemma VoiceTracker.note_on_count_new {t : VoiceTracker} {n : ℕ}
    (hm : n ∉ t.voices) : (t.note_on n).count = t.count + 1 := by
  unfold VoiceTracker.note_on VoiceTracker.count
  rw [if_neg hm]
  dsimp only
  rw [List.length_append, List.length_singleton]

lemma VoiceTracker.note_off_absent {t : VoiceTracker} {n : ℕ}
    (hm : n ∉ t.voices) : t.note_off n = t := by
  unfold VoiceTracker.note_off
  cases t with
  | mk limit voices => simp [List.erase_of_not_mem hm]

lemma foldl_erase_self : ∀ (l : List ℕ), l.Nodup →
    List.foldl List.erase l l = [] := by
  intro l
  induction l with
  | nil => intro _; rfl
  | cons n rest ih =>
    intro h
    simp only [List.foldl_cons, List.erase_cons_head]
    exact ih (List.Nodup.of_cons h)

lemma panicLoop_ok (net : Net) :
    ∀ (l : List ℕ) (s : SamplerTUI),
      (∀ n, net (Msg.note_off s.sample_key n) = none) →
      (SamplerTUI.panicLoop net s l).2 = l.map (Msg.note_off s.sample_key) ∧
      (SamplerTUI.panicLoop net s l).1.voice_tracker.voices =
        List.foldl List.erase s.voice_tracker.voices l := by
  intro l
  induction l with
  | nil => intro s _; exact ⟨rfl, rfl⟩
  | cons n rest ih =>
    intro s hnet
    unfold SamplerTUI.panicLoop SamplerTUI.send_note_off
    dsimp only
    rw [hnet n]
    dsimp only
    have hnet2 : ∀ m, net (Msg.note_off
        ({ s with
            voice_tracker := s.voice_tracker.note_off n,
            msg_log := pushLog s.msg_log ("PANIC" ++ " note_off " ++ toString n)
          } : SamplerTUI).sample_key m) = none := hnet
    obtain ⟨ihm, iht⟩ := ih _ hnet2
    constructor
    · rw [ihm]
      simp [List.map_cons]
    · rw [iht]
      rfl

/-! ### Key-map disjointness and dispatch lemmas -/

lemma adsrKeyMap_loopKeyMap_none {key : ℕ} {e : ParamName × ℤ × Bool}
    (h : adsrKeyMap key = some e) : loopKeyMap key = none := by
  unfold adsrKeyMap at h
  split_ifs at h with h1 h2 h3 h4 h5 h6 h7 h8
  · subst h1; rfl
  · subst h2; rfl
  · subst h3; rfl
  · subst h4; rfl
  · subst h5; rfl
  · subst h6; rfl
  · subst h7; rfl
  · subst h8; rfl

lemma loopKeyMap_adsrKeyMap_none {key : ℕ} {k : LoopKey}
    (h : loopKeyMap key = some k) : adsrKeyMap key = none := by
  unfold loopKeyMap at h
  split_ifs at h with h1 h2 h3 h4 h5 h6 h7 h8
  · rcases h1 with h1 | h1 <;> subst h1 <;> rfl
  · subst h2; rfl
  · rcases h3 with h3 | h3 <;> subst h3 <;> rfl
  · subst h4; rfl
  · rcases h5 with h5 | h5 <;> subst h5 <;> rfl
  · subst h6; rfl
  · rcases h7 with h7 | h7 <;> subst h7 <;> rfl
  · subst h8; rfl

lemma handleKey_eq_loop (net : Net) (s : SamplerTUI) {key : ℕ}
    (hq : ¬(key = 113 ∨ key = 81)) (hp : ¬key = 59)
    (hL : (s.handle_loop_keys net key).1 = true) :
    s.handleKey net key =
      ((s.handle_loop_keys net key).2.1, (s.handle_loop_keys net key).2.2) := by
  unfold SamplerTUI.handleKey
  rw [if_neg hq, if_neg hp]
  dsimp only
  rw [if_pos hL]

lemma handleKey_eq_adsr (net : Net) (s : SamplerTUI) {key : ℕ}
    (hq : ¬(key = 113 ∨ key = 81)) (hp : ¬key = 59)
    (hL : (s.handle_loop_keys net key).1 = false)
    (hA : (s.handle_adsr_keys net key).1 = true) :
    s.handleKey net key =
      ((s.handle_adsr_keys net key).2.1, (s.handle_adsr_keys net key).2.2) := by
  have hid := handle_loop_keys_false_id net s key hL
  unfold SamplerTUI.handleKey
  rw [if_neg hq, if_neg hp]
  simp [hid, hA]

lemma handleKey_eq_keyboard (net : Net) (s : SamplerTUI) {key : ℕ}
    (hq : ¬(key = 113 ∨ key = 81)) (hp : ¬key = 59)
    (hL : (s.handle_loop_keys net key).1 = false)
    (hA : adsrKeyMap key = none) :
    s.handleKey net key =
      ((s.handle_keyboard_note net key).2.1,
        (s.handle_keyboard_note net key).2.2) := by
  have hid := handle_loop_keys_false_id net s key hL
  have hida := handle_adsr_keys_none net s hA
  unfold SamplerTUI.handleKey
  rw [if_neg hq, if_neg hp]
  simp [hid, hida]

/-! ### Concrete states used by the closed scenario theorems -/

/-- A controller state as built at startup with the default configuration
(sample key plasma, voice limit 8, default velocity 0.6, default ADSR and
loop window). -/
def demoTUI : SamplerTUI :=
  { sample_key := "plasma"
    voice_limit := 8
    default_velocity := 3/5
    adsr := defaultADSR
    loop_params := LoopParameters.init 0 1 (1/50) (1/100) (1/20)
    msg_log := []
    voice_tracker := VoiceTracker.init 8
    keyboard_mapper := ⟨[]⟩ }

/-- demoTUI with the loop start driven up to its boundary
end - min_span = 0.98. -/
def demoBoundary : SamplerTUI :=
  { demoTUI with loop_params := ⟨49/50, 1, 1/50, 1/100, 1/20, 97⟩ }

/-- demoTUI with three active voices 60, 64, 67. -/
def demoPanicState : SamplerTUI :=
  { demoTUI with voice_tracker := ⟨8, [60, 64, 67]⟩ }

/-! ### Auxiliary facts for the claim theorems -/

lemma LoopParameters.init_min_span (start end_ min_span step coarse_step : ℚ) :
    (LoopParameters.init start end_ min_span step coarse_step).min_span =
      min_span := by
  unfold LoopParameters.init
  dsimp only
  split <;> rfl

lemma adjust_start_true_cases (p : LoopParameters) (delta : ℚ) :
    p.adjust_start delta = (false, p) ∨
    ((p.adjust_start delta).1 = true ∧
     (p.adjust_start delta).2.revision = p.revision + 1) := by
  unfold LoopParameters.adjust_start
  dsimp only
  split <;> split
  all_goals first | exact Or.inl rfl | exact Or.inr ⟨rfl, rfl⟩

lemma adjust_end_true_cases (p : LoopParameters) (delta : ℚ) :
    p.adjust_end delta = (false, p) ∨
    ((p.adjust_end delta).1 = true ∧
     (p.adjust_end delta).2.revision = p.revision + 1) := by
  unfold LoopParameters.adjust_end
  dsimp only
  split <;> split
  all_goals first | exact Or.inl rfl | exact Or.inr ⟨rfl, rfl⟩

/-- The clamped candidate value computed by ADSR.adjust. -/
def ADSR.target (a : ADSR) (name : ParamName) (direction : ℤ)
    (coarse : Bool) : ℚ :=
  max (a.ranges.get name).minimum (min (a.ranges.get name).maximum
    (a.get name + (direction : ℚ) *
      ((a.ranges.get name).step * (if coarse then 5 else 1))))

lemma ADSR.adjust_eq (a : ADSR) (n : ParamName) (d : ℤ) (c : Bool) :
    a.adjust n d c =
      if |a.target n d c - a.get n| < eps then (false, a)
      else (true, a.setattr n (a.target n d c)) := rfl

/-! ### Claim theorems -/

/-- C1 (amended): a transport-level send failure is caught at the call site
and appended to the log with the error text; the failure handler itself
mutates nothing but the log, so for note-on and note-off the triggering
event leaves the tracker (and all other engine state) unchanged, while for
parameter-update and loop-update the local adjustment was already
committed before the send and remains committed after the failure; the
loop continues in every case. -/
theorem C1_send_failure_recovery (net : Net) (s : SamplerTUI) (note : ℕ)
    (velocity : ℚ) (source : String) (name : ParamName) (value : ℚ)
    (reason : String) (err : String) (key : ℕ) (nm : ParamName) (d : ℤ)
    (c : Bool) (delta : ℚ) :
    (net (Msg.note_on s.sample_key note velocity) = some err →
      s.send_note_on net note velocity source =
        ({ s with msg_log :=
            pushLog s.msg_log ("Failed to send note_on: " ++ err) }, [])) ∧
    (net (Msg.note_off s.sample_key note) = some err →
      s.send_note_off net note source =
        ({ s with msg_log :=
            pushLog s.msg_log ("Failed to send note_off: " ++ err) }, [])) ∧
    (net (Msg.param name value) = some err →
      s.send_param_update net name value =
        ({ s with msg_log :=
            pushLog s.msg_log ("Failed to send param update: " ++ err) }, [])) ∧
    (net (Msg.loop s.loop_params.start s.loop_params.end_
        s.loop_params.revision) = some err →
      s.send_loop_update net reason =
        ({ s with msg_log :=
            pushLog s.msg_log ("Failed to update loop: " ++ err) }, [])) ∧
    (adsrKeyMap key = some (nm, d, c) → (s.adsr.adjust nm d c).1 = true →
      (s.handle_adsr_keys net key).2.1.adsr = (s.adsr.adjust nm d c).2) ∧
    ((s.loop_params.adjust_start delta).1 = true →
      (s.adjust_loop_start net delta).2.1.loop_params =
        (s.loop_params.adjust_start delta).2) := by
  refine ⟨?_, ?_, ?_, ?_, ?_, ?_⟩
  · intro h
    unfold SamplerTUI.send_note_on
    dsimp only
    rw [h]
  · intro h
    unfold SamplerTUI.send_note_off
    dsimp only
    rw [h]
  · intro h
    unfold SamplerTUI.send_param_update
    dsimp only
    rw [h]
  · intro h
    unfold SamplerTUI.send_loop_update
    dsimp only
    rw [h]
  · intro hA hc
    unfold SamplerTUI.handle_adsr_keys
    rw [hA]
    dsimp only
    rw [if_pos hc]
    dsimp only
    rw [send_param_update_adsr]
  · intro hc
    unfold SamplerTUI.adjust_loop_start
    dsimp only
    rw [if_pos hc]
    dsimp only
    rw [send_loop_update_loop_params]

/-- C1 counterexample to the claim as stated: with a failing transport, the
ADSR key t (code 116) still commits the attack change locally, so the ADSR
state after handling the event differs from before although the send
raised and the error was logged. -/
theorem C1_counterexample :
    ((SamplerTUI.handleKey (fun _ => some "boom") demoTUI 116).1.adsr.attack =
      1/1000) ∧
    demoTUI.adsr.attack = 1/100 ∧
    "Failed to send param update: boom" ∈
      (SamplerTUI.handleKey (fun _ => some "boom") demoTUI 116).1.msg_log := by
  refine ⟨?_, by norm_num [demoTUI, defaultADSR], ?_⟩ <;>
    norm_num [SamplerTUI.handleKey, SamplerTUI.handle_loop_keys, loopKeyMap,
      SamplerTUI.handle_adsr_keys, adsrKeyMap, ADSR.adjust, ADSR.get,
      ADSR.setattr, defaultADSR, defaultRanges, ADSRRanges.get, eps, demoTUI,
      SamplerTUI.send_param_update, pushLog, ParamName.str,
      LoopParameters.init, clamp01, VoiceTracker.init, abs_lt, le_abs]
  exact Or.inl rfl

/-- C1 witness: the amended theorem applied to a concrete failing
transport. -/
theorem C1_witness :
    SamplerTUI.send_note_on (fun _ => some "boom") demoTUI 60 (3/5) "KEY" =
      ({ demoTUI with
          msg_log := pushLog demoTUI.msg_log ("Failed to send note_on: " ++ "boom") },
        []) ∧
    SamplerTUI.send_param_update (fun _ => some "boom") demoTUI .attack
        (1/1000) =
      ({ demoTUI with
          msg_log := pushLog demoTUI.msg_log ("Failed to send param update: " ++ "boom") },
        []) := by
  have h := C1_send_failure_recovery (fun _ => some "boom") demoTUI 60 (3/5)
    "KEY" .attack (1/1000) "start" "boom" 116 .attack (-1) false (1/100)
  exact ⟨h.1 rfl, h.2.2.1 rfl⟩

/-- C2 (amended): for a key that is neither quit nor panic, the dispatch
tries loop-window keys, then ADSR keys, then keyboard-note keys; a key
matching a loop binding never reaches the ADSR handler, and consumes the
key when its adjustment commits (the keyboard mapper is then untouched);
a key matching an ADSR binding is always consumed there and never reaches
the keyboard-note handler; but a loop-bound key whose adjustment is a
no-op falls through to the keyboard-note handler. -/
theorem C2_dispatch_priority (net : Net) (s : SamplerTUI) (key : ℕ)
    (hq : ¬(key = 113 ∨ key = 81)) (hp : ¬key = 59) :
    (∀ k, loopKeyMap key = some k →
      (s.handleKey net key).1.adsr = s.adsr) ∧
    ((s.handle_loop_keys net key).1 = true →
      s.handleKey net key =
        ((s.handle_loop_keys net key).2.1, (s.handle_loop_keys net key).2.2) ∧
      (s.handleKey net key).1.keyboard_mapper = s.keyboard_mapper) ∧
    (∀ e, adsrKeyMap key = some e →
      (s.handleKey net key).1.keyboard_mapper = s.keyboard_mapper ∧
      (s.handleKey net key).1.voice_tracker = s.voice_tracker) ∧
    (loopKeyMap key = none → adsrKeyMap key = none →
      s.handleKey net key =
        ((s.handle_keyboard_note net key).2.1,
          (s.handle_keyboard_note net key).2.2)) ∧
    (∀ k, loopKeyMap key = some k → (s.handle_loop_keys net key).1 = false →
      s.handleKey net key =
        ((s.handle_keyboard_note net key).2.1,
          (s.handle_keyboard_note net key).2.2)) := by
  refine ⟨?_, ?_, ?_, ?_, ?_⟩
  · intro k hk
    by_cases hL : (s.handle_loop_keys net key).1 = true
    · rw [handleKey_eq_loop net s hq hp hL]
      exact handle_loop_keys_adsr net s key
    · have hL2 : (s.handle_loop_keys net key).1 = false := by
        revert hL
        cases (s.handle_loop_keys net key).1 <;> simp
      rw [handleKey_eq_keyboard net s hq hp hL2
        (loopKeyMap_adsrKeyMap_none hk)]
      exact handle_keyboard_note_adsr net s key
  · intro hL
    rw [handleKey_eq_loop net s hq hp hL]
    exact ⟨rfl, handle_loop_keys_keyboard_mapper net s key⟩
  · intro e he
    have hLn := handle_loop_keys_none net s (adsrKeyMap_loopKeyMap_none he)
    have hL2 : (s.handle_loop_keys net key).1 = false := by rw [hLn]
    rw [handleKey_eq_adsr net s hq hp hL2
      (handle_adsr_keys_consumes net s he)]
    exact ⟨handle_adsr_keys_keyboard_mapper net s key,
      handle_adsr_keys_voice_tracker net s key⟩
  · intro hLn hAn
    have hL2 : (s.handle_loop_keys net key).1 = false := by
      rw [handle_loop_keys_none net s hLn]
    exact handleKey_eq_keyboard net s hq hp hL2 hAn
  · intro k hk hL
    exact handleKey_eq_keyboard net s hq hp hL
      (loopKeyMap_adsrKeyMap_none hk)

/-- C2 counterexample to the claim as stated: key d (code 100) matches the
loop-window binding for loop-start increase, but with the start already at
end - min_span the loop adjustment is a no-op, the handler returns false,
and the same key is additionally routed to the keyboard-note handler: it
toggles note 63 on and a note-on message is sent in the same tick. -/
theorem C2_counterexample :
    loopKeyMap 100 = some ⟨false, false, false⟩ ∧
    (SamplerTUI.handleKey (fun _ => none) demoBoundary 100).2 =
      [Msg.note_on "plasma" 63 (3/5)] ∧
    (SamplerTUI.handleKey (fun _ => none) demoBoundary 100).1.keyboard_mapper =
      ⟨[(63, true)]⟩ := by
  refine ⟨rfl, ?_, ?_⟩ <;>
    norm_num [SamplerTUI.handleKey, SamplerTUI.handle_loop_keys, loopKeyMap,
      SamplerTUI.adjust_loop_start, LoopParameters.adjust_start, clamp01, eps,
      SamplerTUI.handle_adsr_keys, adsrKeyMap,
      SamplerTUI.handle_keyboard_note, KeyboardNoteMapper.translate, KEY_MAP,
      dictGet, dictSet, SamplerTUI.send_note_on, pushLog, demoBoundary,
      demoTUI, VoiceTracker.init, VoiceTracker.note_on, defaultADSR,
      defaultRanges, LoopParameters.init, abs_lt, le_abs]

/-- C2 witness: the amended theorem applied to the ADSR key t (code 116)
at a concrete state. -/
theorem C2_witness :
    (SamplerTUI.handleKey (fun _ => none) demoTUI 116).1.keyboard_mapper =
      demoTUI.keyboard_mapper ∧
    (SamplerTUI.handleKey (fun _ => none) demoTUI 116).1.voice_tracker =
      demoTUI.voice_tracker := by
  have h := C2_dispatch_priority (fun _ => none) demoTUI 116 (by decide)
    (by decide)
  exact h.2.2.1 (.attack, -1, false) rfl

/-- C3 (amended): provided the configured minimum span lies in [0, 1], the
loop window satisfies 0 ≤ start ≤ end ≤ 1 and end - start ≥ min_span after
the constructor and after every sequence of adjust_start and adjust_end
calls with arbitrary deltas. -/
theorem C3_loop_window_invariant (start end_ min_span step coarse_step : ℚ)
    (h0 : 0 ≤ min_span) (h1 : min_span ≤ 1) (l : List (Bool × ℚ)) :
    LoopInv (l.foldl applyLoopAdjust
      (LoopParameters.init start end_ min_span step coarse_step)) := by
  refine LoopInv.foldl_preserves (LoopInv.init_holds h0 h1) ?_ l
  rw [LoopParameters.init_min_span]
  exact h0

/-- C3 counterexample to the claim as stated: with the constructor input
min_span = 2 the normalized window is (0, 1) whose span 1 is below
min_span, so the invariant fails right after construction. -/
theorem C3_counterexample :
    ¬ LoopInv (LoopParameters.init 0 1 2 (1/100) (1/20)) := by
  norm_num [LoopInv, LoopParameters.init, clamp01]

/-- C3 witness: the amended theorem applied to the default configuration
and a concrete adjustment sequence. -/
theorem C3_witness :
    LoopInv ([((false : Bool), (1 : ℚ)/2), ((true : Bool), -(1 : ℚ))].foldl
      applyLoopAdjust (LoopParameters.init 0 1 (1/50) (1/100) (1/20))) :=
  C3_loop_window_invariant 0 1 (1/50) (1/100) (1/20) (by norm_num)
    (by norm_num) [((false : Bool), (1 : ℚ)/2), ((true : Bool), -(1 : ℚ))]

/-- C4: an adjust_start or adjust_end call that returns true increments
revision by exactly 1, and a call that returns false leaves the whole
LoopParameters state (revision, start and end included) unchanged. -/
theorem C4_revision_semantics (p : LoopParameters) (delta : ℚ) :
    ((p.adjust_start delta).1 = true →
      (p.adjust_start delta).2.revision = p.revision + 1) ∧
    ((p.adjust_start delta).1 = false → (p.adjust_start delta).2 = p) ∧
    ((p.adjust_end delta).1 = true →
      (p.adjust_end delta).2.revision = p.revision + 1) ∧
    ((p.adjust_end delta).1 = false → (p.adjust_end delta).2 = p) := by
  refine ⟨?_, ?_, ?_, ?_⟩
  · intro h
    rcases adjust_start_true_cases p delta with hc | hc
    · rw [hc] at h
      exact absurd h (by simp)
    · exact hc.2
  · intro h
    rcases adjust_start_true_cases p delta with hc | hc
    · rw [hc]
    · rw [hc.1] at h
      exact absurd h (by simp)
  · intro h
    rcases adjust_end_true_cases p delta with hc | hc
    · rw [hc] at h
      exact absurd h (by simp)
    · exact hc.2
  · intro h
    rcases adjust_end_true_cases p delta with hc | hc
    · rw [hc]
    · rw [hc.1] at h
      exact absurd h (by simp)

/-- C4 witness: a committing and a no-op adjustment at the default loop
window. -/
theorem C4_witness :
    ((LoopParameters.init 0 1 (1/50) (1/100) (1/20)).adjust_start
      (1/100)).2.revision =
      (LoopParameters.init 0 1 (1/50) (1/100) (1/20)).revision + 1 ∧
    ((LoopParameters.init 0 1 (1/50) (1/100) (1/20)).adjust_start 0).2 =
      LoopParameters.init 0 1 (1/50) (1/100) (1/20) := by
  have h := C4_revision_semantics
    (LoopParameters.init 0 1 (1/50) (1/100) (1/20)) (1/100)
  have h0 := C4_revision_semantics
    (LoopParameters.init 0 1 (1/50) (1/100) (1/20)) 0
  refine ⟨h.1 ?_, h0.2.1 ?_⟩ <;>
    norm_num [LoopParameters.init, LoopParameters.adjust_start, clamp01, eps,
      abs_lt, le_abs]

/-- C5: ADSR.adjust computes clamp(current + direction × step × (5 if
coarse else 1), minimum, maximum); when the clamped result is within 1e-6
of the current value it returns false and leaves the state unchanged,
otherwise it returns true and commits exactly the clamped result; and
starting from the default ADSR every adjustment sequence keeps every
parameter inside [minimum, maximum] at every step. -/
theorem C5_adsr_adjust (a : ADSR) (n : ParamName) (d : ℤ) (c : Bool)
    (l : List (ParamName × ℤ × Bool)) :
    (|a.target n d c - a.get n| < eps → a.adjust n d c = (false, a)) ∧
    (eps ≤ |a.target n d c - a.get n| →
      (a.adjust n d c).1 = true ∧
      (a.adjust n d c).2.get n = a.target n d c) ∧
    (l.foldl applyADSRAdjust defaultADSR).InRange := by
  have hw : defaultADSR.ranges.WellFormed := defaultRanges_wf
  refine ⟨?_, ?_, ADSR.foldl_preserves_InRange hw defaultADSR_InRange l⟩
  · intro h
    rw [ADSR.adjust_eq, if_pos h]
  · intro h
    rw [ADSR.adjust_eq, if_neg (not_lt.2 h)]
    exact ⟨rfl, ADSR.get_setattr_self a n _⟩

/-- C5 witness: decrementing attack from its default 0.01 clamps to the
minimum 0.001 and commits; a zero-direction adjustment is a no-op. -/
theorem C5_witness :
    (defaultADSR.adjust .attack (-1) false).1 = true ∧
    (defaultADSR.adjust .attack (-1) false).2.get .attack =
      defaultADSR.target .attack (-1) false ∧
    defaultADSR.adjust .attack 0 false = (false, defaultADSR) := by
  have h := C5_adsr_adjust defaultADSR .attack (-1) false []
  have h0 := C5_adsr_adjust defaultADSR .attack 0 false []
  have he : eps ≤ |defaultADSR.target .attack (-1) false -
      defaultADSR.get .attack| := by
    norm_num [ADSR.target, ADSR.get, defaultADSR, defaultRanges,
      ADSRRanges.get, eps, abs_lt, le_abs]
  have he0 : |defaultADSR.target .attack 0 false -
      defaultADSR.get .attack| < eps := by
    norm_num [ADSR.target, ADSR.get, defaultADSR, defaultRanges,
      ADSRRanges.get, eps, abs_lt, le_abs]
  exact ⟨(h.2.1 he).1, (h.2.1 he).2, h0.1 he0⟩

/-- C6: over every event sequence the tracker's key list is duplicate-free
and its underlying set equals the set of notes currently on under standard
on/off semantics, so count equals the number of distinct on notes; note_on
of a tracked note keeps count and moves the note to the most-recent (last)
position, note_on of a new note appends it and increments count, and
note_off of an absent note is a no-op. -/
theorem C6_voice_tracker (limit : ℕ) (evs : List VoiceEvent)
    (t : VoiceTracker) (n : ℕ) (h : t.voices.Nodup) :
    ((evs.foldl VoiceTracker.applyEvent (VoiceTracker.init limit)).voices.Nodup ∧
     (evs.foldl VoiceTracker.applyEvent
        (VoiceTracker.init limit)).voices.toFinset =
       evs.foldl onSetStep (∅ : Finset ℕ) ∧
     (evs.foldl VoiceTracker.applyEvent (VoiceTracker.init limit)).count =
       (evs.foldl onSetStep (∅ : Finset ℕ)).card) ∧
    (∀ x, x ∈ (t.note_on n).voices ↔ x = n ∨ x ∈ t.voices) ∧
    (n ∈ t.voices → (t.note_on n).count = t.count) ∧
    (n ∉ t.voices → (t.note_on n).count = t.count + 1) ∧
    (t.note_on n).active_notes.getLast? = some n ∧
    (n ∉ t.voices → t.note_off n = t) := by
  obtain ⟨h1, h2⟩ := VoiceTracker.run_spec evs (VoiceTracker.init limit)
    List.nodup_nil
  have h2e : (evs.foldl VoiceTracker.applyEvent
      (VoiceTracker.init limit)).voices.toFinset =
      evs.foldl onSetStep (∅ : Finset ℕ) := by
    rw [h2]
    rfl
  refine ⟨⟨h1, h2e, ?_⟩, VoiceTracker.mem_note_on h n,
    fun hm => VoiceTracker.note_on_count_mem hm,
    fun hm => VoiceTracker.note_on_count_new hm,
    VoiceTracker.note_on_getLast n,
    fun hm => VoiceTracker.note_off_absent hm⟩
  rw [← h2e, List.toFinset_card_of_nodup h1]
  rfl

/-- C6 witness: a concrete event sequence with a re-trigger and a stray
note-off, and concrete single-step facts. -/
theorem C6_witness :
    ([VoiceEvent.on 60, VoiceEvent.on 64, VoiceEvent.on 60,
        VoiceEvent.off 99].foldl VoiceTracker.applyEvent
      (VoiceTracker.init 8)).count =
      ([VoiceEvent.on 60, VoiceEvent.on 64, VoiceEvent.on 60,
          VoiceEvent.off 99].foldl onSetStep (∅ : Finset ℕ)).card ∧
    ((⟨8, [60, 64]⟩ : VoiceTracker).note_on 60).count =
      (⟨8, [60, 64]⟩ : VoiceTracker).count := by
  have h := C6_voice_tracker 8
    [VoiceEvent.on 60, VoiceEvent.on 64, VoiceEvent.on 60, VoiceEvent.off 99]
    ⟨8, [60, 64]⟩ 60 (by decide)
  exact ⟨h.1.2.2, h.2.2.1 (by decide)⟩

/-- C7: when every note-off send succeeds, panic with n > 0 active notes
emits exactly one note-off per note of the pre-panic snapshot (n messages,
none skipped or duplicated), removes every note, and leaves count 0; with
no active notes it sends nothing and logs "PANIC: no active notes". -/
theorem C7_panic (net : Net) (s : SamplerTUI)
    (hnet : ∀ n, net (Msg.note_off s.sample_key n) = none)
    (hnd : s.voice_tracker.voices.Nodup) :
    (s.voice_tracker.count = 0 →
      s.panic_all_notes_off net =
        ({ s with msg_log := pushLog s.msg_log "PANIC: no active notes" },
          [])) ∧
    (0 < s.voice_tracker.count →
      (s.panic_all_notes_off net).2 =
        s.voice_tracker.active_notes.map (Msg.note_off s.sample_key) ∧
      (s.panic_all_notes_off net).2.length = s.voice_tracker.count ∧
      (s.panic_all_notes_off net).1.voice_tracker.count = 0) := by
  constructor
  · intro h0
    have hl : s.voice_tracker.active_notes = [] := by
      unfold VoiceTracker.active_notes
      unfold VoiceTracker.count at h0
      exact List.length_eq_zero.1 h0
    unfold SamplerTUI.panic_all_notes_off
    rw [hl]
    rfl
  · intro hpos
    obtain ⟨hm, ht⟩ := panicLoop_ok net s.voice_tracker.active_notes s hnet
    have hne : s.voice_tracker.active_notes.isEmpty = false := by
      unfold VoiceTracker.active_notes
      unfold VoiceTracker.count at hpos
      rcases hv : s.voice_tracker.voices with _ | ⟨a, l2⟩
      · rw [hv] at hpos
        exact absurd hpos (by simp)
      · rfl
    unfold SamplerTUI.panic_all_notes_off
    simp only [hne, Bool.false_eq_true, if_false]
    refine ⟨hm, ?_, ?_⟩
    · rw [hm, List.length_map]
      rfl
    · show (SamplerTUI.panicLoop net s
        s.voice_tracker.active_notes).1.voice_tracker.count = 0
      unfold VoiceTracker.count
      rw [ht]
      show (List.foldl List.erase s.voice_tracker.voices
        s.voice_tracker.voices).length = 0
      rw [foldl_erase_self s.voice_tracker.voices hnd]
      rfl

/-- C7 witness: panic at a state with active notes 60, 64, 67 over a
succeeding transport emits exactly 3 note-off messages and empties the
tracker; panic at the fresh state logs the no-active-notes line. -/
theorem C7_witness :
    ((SamplerTUI.panic_all_notes_off (fun _ => none) demoPanicState).2 =
      [Msg.note_off "plasma" 60, Msg.note_off "plasma" 64,
        Msg.note_off "plasma" 67] ∧
     (SamplerTUI.panic_all_notes_off
        (fun _ => none) demoPanicState).1.voice_tracker.count = 0) ∧
    SamplerTUI.panic_all_notes_off (fun _ => none) demoTUI =
      ({ demoTUI with
          msg_log := pushLog demoTUI.msg_log "PANIC: no active notes" },
        []) := by
  have h := C7_panic (fun _ => none) demoPanicState (fun n => rfl) (by decide)
  have h0 := C7_panic (fun _ => none) demoTUI (fun n => rfl) (by decide)
  refine ⟨⟨?_, (h.2 (by decide)).2.2⟩, h0.1 (by decide)⟩
  rw [(h.2 (by decide)).1]
  rfl

/-- C8: the keyboard translator toggles a mapped key's note on successive
presses starting from the off state (on, off, on), and an unmapped key
yields no translation and leaves the toggle state untouched. -/
theorem C8_keyboard_toggle (m : KeyboardNoteMapper) (key note : ℕ) :
    (KEY_MAP key = none → m.translate key = (none, m)) ∧
    (KEY_MAP key = some note → dictGet m.active note = false →
      (m.translate key).1 = some (note, true) ∧
      ((m.translate key).2.translate key).1 = some (note, false) ∧
      (((m.translate key).2.translate key).2.translate key).1 =
        some (note, true)) := by
  constructor
  · intro h
    unfold KeyboardNoteMapper.translate
    rw [h]
  · intro h h0
    simp only [KeyboardNoteMapper.translate, h, h0, dictGet_dictSet_self,
      Bool.not_false, Bool.not_true]
    exact ⟨trivial, trivial, trivial⟩

/-- C8 witness: key z (code 122, note 60) pressed three times from the
fresh mapper, and an unmapped key code. -/
theorem C8_witness :
    (⟨[]⟩ : KeyboardNoteMapper).translate 999 = (none, ⟨[]⟩) ∧
    ((⟨[]⟩ : KeyboardNoteMapper).translate 122).1 = some (60, true) ∧
    (((⟨[]⟩ : KeyboardNoteMapper).translate 122).2.translate 122).1 =
      some (60, false) ∧
    ((((⟨[]⟩ : KeyboardNoteMapper).translate 122).2.translate
        122).2.translate 122).1 = some (60, true) := by
  have h1 := (C8_keyboard_toggle ⟨[]⟩ 999 0).1 (by decide)
  have h2 := (C8_keyboard_toggle ⟨[]⟩ 122 60).2 (by decide) (by decide)
  exact ⟨h1, h2.1, h2.2.1, h2.2.2⟩

/-- C9: the per-note toggle dict is mutated only by translate: note-off
sends (MIDI or panic's bulk release), the whole panic routine, and the
loop/ADSR handlers leave it unchanged; concretely, pressing z turns note
60 on, panic then empties the tracker while the toggle for 60 stays true,
so the next press of z yields an off event for a note that is no longer
active. -/
theorem C9_toggle_frame (net : Net) (s : SamplerTUI) (note key : ℕ)
    (src : String) :
    ((s.send_note_off net note src).1.keyboard_mapper = s.keyboard_mapper ∧
     (s.panic_all_notes_off net).1.keyboard_mapper = s.keyboard_mapper ∧
     (s.handle_loop_keys net key).2.1.keyboard_mapper = s.keyboard_mapper ∧
     (s.handle_adsr_keys net key).2.1.keyboard_mapper = s.keyboard_mapper) ∧
    ((SamplerTUI.handleKey (fun _ => none)
        ((SamplerTUI.handleKey (fun _ => none) demoTUI 122).1)
        59).1.voice_tracker.voices = [] ∧
     (SamplerTUI.handleKey (fun _ => none)
        ((SamplerTUI.handleKey (fun _ => none) demoTUI 122).1)
        59).1.keyboard_mapper.active = [(60, true)] ∧
     (SamplerTUI.handleKey (fun _ => none)
        ((SamplerTUI.handleKey (fun _ => none)
          ((SamplerTUI.handleKey (fun _ => none) demoTUI 122).1) 59).1)
        122).2 = [Msg.note_off "plasma" 60]) := by
  refine ⟨⟨send_note_off_keyboard_mapper net s note src,
    panic_all_keyboard_mapper net s,
    handle_loop_keys_keyboard_mapper net s key,
    handle_adsr_keys_keyboard_mapper net s key⟩,
    by decide, by decide, by decide⟩

/-- C9 witness: the frame part applied at a concrete state. -/
theorem C9_witness :
    (SamplerTUI.send_note_off (fun _ => none) demoPanicState 60
      "MIDI").1.keyboard_mapper = demoPanicState.keyboard_mapper ∧
    (SamplerTUI.panic_all_notes_off
      (fun _ => none) demoPanicState).1.keyboard_mapper =
      demoPanicState.keyboard_mapper := by
  have h := C9_toggle_frame (fun _ => none) demoPanicState 60 116 "MIDI"
  exact ⟨h.1.1, h.1.2.1⟩

/-- C10: the constructor stores max(0, min(1, v)) as the default velocity,
which lies in [0, 1], and over every subsequent key sequence every
keyboard-triggered note-on message carries exactly that velocity, hence a
velocity in [0, 1]. -/
theorem C10_velocity_clamped (net : Net) (sk : String) (vl : ℕ) (v : ℚ)
    (adsr : ADSR) (lp : LoopParameters) (keys : List ℕ) (mk : String)
    (n : ℕ) (vel : ℚ) :
    (SamplerTUI.construct net sk vl v adsr lp).1.default_velocity =
      max 0 (min 1 v) ∧
    0 ≤ (SamplerTUI.construct net sk vl v adsr lp).1.default_velocity ∧
    (SamplerTUI.construct net sk vl v adsr lp).1.default_velocity ≤ 1 ∧
    (Msg.note_on mk n vel ∈
        (SamplerTUI.runKeys net
          (SamplerTUI.construct net sk vl v adsr lp).1 keys).2 →
      0 ≤ vel ∧ vel ≤ 1) := by
  have h1 := construct_default_velocity net sk vl v adsr lp
  refine ⟨h1, ?_, ?_, ?_⟩
  · rw [h1]
    exact le_max_left 0 _
  · rw [h1]
    exact max_le (by norm_num) (min_le_left 1 v)
  · intro hm
    have hv := runKeys_note_on_vel net keys _ mk n vel hm
    rw [hv, h1]
    exact ⟨le_max_left 0 _, max_le (by norm_num) (min_le_left 1 v)⟩

/-- C10 witness: an out-of-range configured velocity 2 is stored as 1, and
the note-on triggered by pressing z carries velocity 1 ∈ [0, 1]. -/
theorem C10_witness :
    (SamplerTUI.construct (fun _ => none) "plasma" 8 2 defaultADSR
      (LoopParameters.init 0 1 (1/50) (1/100) (1/20))).1.default_velocity =
      1 ∧
    (0 ≤ (1 : ℚ) ∧ (1 : ℚ) ≤ 1) := by
  have h := C10_velocity_clamped (fun _ => none) "plasma" 8 2 defaultADSR
    (LoopParameters.init 0 1 (1/50) (1/100) (1/20)) [122] "plasma" 60 1
  refine ⟨by rw [h.1]; norm_num, h.2.2.2 ?_⟩
  norm_num [SamplerTUI.runKeys, SamplerTUI.handleKey, SamplerTUI.construct,
    SamplerTUI.send_initial_params, SamplerTUI.send_param_update,
    SamplerTUI.send_loop_update, SamplerTUI.handle_loop_keys, loopKeyMap,
    SamplerTUI.handle_adsr_keys, adsrKeyMap, SamplerTUI.handle_keyboard_note,
    KeyboardNoteMapper.translate, KEY_MAP, dictGet, dictSet,
    SamplerTUI.send_note_on, pushLog, VoiceTracker.init,
    VoiceTracker.note_on]

end LoopSampler
